import Mathlib

/-!
Verification of the real-time session synchronization layer of SonicLine
(`backend/app/websocket.py`, class `ConnectionManager`).

The Python code is shallowly embedded: JSON values become the inductive
type `Json`; the five per-session dictionaries of the manager become
association lists inside the structure `Manager`; each method of
`ConnectionManager` becomes a pure Lean function returning the updated
state together with the frames it would send.  A Python `KeyError`
raised by a direct dictionary index (`d[k]` on a missing key) is
modelled by an `Except.error` result; `dict.get` with a default is
modelled by `Option.getD`.
-/

/-- JSON values as produced by `json.loads`.  Numbers are modelled as
integers: no claim depends on float behaviour. -/
inductive Json where
  | null
  | bool (b : Bool)
  | num (n : Int)
  | str (s : String)
  | arr (xs : List Json)
  | obj (kvs : List (String × Json))

mutual

/-- Structural equality on JSON values (Python `==` on parsed JSON,
restricted to the value shapes the claims use). -/
def Json.beq : Json → Json → Bool
  | .null, .null => true
  | .bool a, .bool b => a == b
  | .num a, .num b => a == b
  | .str a, .str b => a == b
  | .arr xs, .arr ys => Json.beqList xs ys
  | .obj xs, .obj ys => Json.beqKVs xs ys
  | _, _ => false

def Json.beqList : List Json → List Json → Bool
  | [], [] => true
  | x :: xs, y :: ys => Json.beq x y && Json.beqList xs ys
  | _, _ => false

def Json.beqKVs : List (String × Json) → List (String × Json) → Bool
  | [], [] => true
  | (k, v) :: xs, (l, w) :: ys => k == l && Json.beq v w && Json.beqKVs xs ys
  | _, _ => false

end

mutual

theorem Json.beq_refl : ∀ (a : Json), Json.beq a a = true
  | .null => rfl
  | .bool b => by simp [Json.beq]
  | .num n => by simp [Json.beq]
  | .str s => by simp [Json.beq]
  | .arr xs => Json.beqList_refl xs
  | .obj kvs => Json.beqKVs_refl kvs

theorem Json.beqList_refl : ∀ (xs : List Json), Json.beqList xs xs = true
  | [] => rfl
  | x :: xs => by
      have h1 := Json.beq_refl x
      have h2 := Json.beqList_refl xs
      simp [Json.beqList, h1, h2]

theorem Json.beqKVs_refl : ∀ (xs : List (String × Json)), Json.beqKVs xs xs = true
  | [] => rfl
  | (k, v) :: xs => by
      have h1 := Json.beq_refl v
      have h2 := Json.beqKVs_refl xs
      simp [Json.beqKVs, h1, h2]

end

mutual

theorem Json.eq_of_beq : ∀ {a b : Json}, Json.beq a b = true → a = b
  | .null, .null, _ => rfl
  | .bool a, .bool b, h => by
      simp only [Json.beq, beq_iff_eq] at h; simp [h]
  | .num a, .num b, h => by
      simp only [Json.beq, beq_iff_eq] at h; simp [h]
  | .str a, .str b, h => by
      simp only [Json.beq, beq_iff_eq] at h; simp [h]
  | .arr xs, .arr ys, h => by
      have := @Json.eqList_of_beq xs ys h
      simp [this]
  | .obj xs, .obj ys, h => by
      have := @Json.eqKVs_of_beq xs ys h
      simp [this]
  | .null, .bool _, h => nomatch h
  | .null, .num _, h => nomatch h
  | .null, .str _, h => nomatch h
  | .null, .arr _, h => nomatch h
  | .null, .obj _, h => nomatch h
  | .bool _, .null, h => nomatch h
  | .bool _, .num _, h => nomatch h
  | .bool _, .str _, h => nomatch h
  | .bool _, .arr _, h => nomatch h
  | .bool _, .obj _, h => nomatch h
  | .num _, .null, h => nomatch h
  | .num _, .bool _, h => nomatch h
  | .num _, .str _, h => nomatch h
  | .num _, .arr _, h => nomatch h
  | .num _, .obj _, h => nomatch h
  | .str _, .null, h => nomatch h
  | .str _, .bool _, h => nomatch h
  | .str _, .num _, h => nomatch h
  | .str _, .arr _, h => nomatch h
  | .str _, .obj _, h => nomatch h
  | .arr _, .null, h => nomatch h
  | .arr _, .bool _, h => nomatch h
  | .arr _, .num _, h => nomatch h
  | .arr _, .str _, h => nomatch h
  | .arr _, .obj _, h => nomatch h
  | .obj _, .null, h => nomatch h
  | .obj _, .bool _, h => nomatch h
  | .obj _, .num _, h => nomatch h
  | .obj _, .str _, h => nomatch h
  | .obj _, .arr _, h => nomatch h

theorem Json.eqList_of_beq : ∀ {xs ys : List Json}, Json.beqList xs ys = true → xs = ys
  | [], [], _ => rfl
  | x :: xs, y :: ys, h => by
      simp only [Json.beqList, Bool.and_eq_true] at h
      have h1 := Json.eq_of_beq h.1
      have h2 := Json.eqList_of_beq h.2
      simp [h1, h2]
  | [], _ :: _, h => nomatch h
  | _ :: _, [], h => nomatch h

theorem Json.eqKVs_of_beq :
    ∀ {xs ys : List (String × Json)}, Json.beqKVs xs ys = true → xs = ys
  | [], [], _ => rfl
  | (k, v) :: xs, (l, w) :: ys, h => by
      simp only [Json.beqKVs, Bool.and_eq_true, beq_iff_eq] at h
      have h1 := Json.eq_of_beq h.1.2
      have h2 := Json.eqKVs_of_beq h.2
      simp [h.1.1, h1, h2]
  | [], _ :: _, h => nomatch h
  | _ :: _, [], h => nomatch h

end

instance : BEq Json := ⟨Json.beq⟩

instance : LawfulBEq Json where
  eq_of_beq h := Json.eq_of_beq h
  rfl := Json.beq_refl _

instance : DecidableEq Json := fun a b =>
  decidable_of_iff (Json.beq a b = true)
    ⟨Json.eq_of_beq, fun h => h ▸ Json.beq_refl a⟩

/-- Python truthiness (`if x:`) for JSON values. -/
def Json.truthy : Json → Bool
  | .null => false
  | .bool b => b
  | .num n => n != 0
  | .str s => s != ""
  | .arr xs => !xs.isEmpty
  | .obj kvs => !kvs.isEmpty

/-- Dictionary lookup (`d.get(k)` / `k in d`): first matching key. -/
def alookup {α : Type} : List (String × α) → String → Option α
  | [], _ => none
  | (k, v) :: t, key => if k = key then some v else alookup t key

/-- Dictionary assignment `d[k] = v`: replace the value if the key is
present, append otherwise. -/
def ainsert {α : Type} : List (String × α) → String → α → List (String × α)
  | [], key, v => [(key, v)]
  | (k, w) :: t, key, v =>
      if k = key then (k, v) :: t else (k, w) :: ainsert t key v

/-- Dictionary deletion `del d[k]`: drop every entry with the key (on
unique-key dictionaries, identical to deleting the single entry). -/
def aerase {α : Type} (l : List (String × α)) (key : String) : List (String × α) :=
  l.filter (fun e => !(e.1 = key : Bool))

/-- The keys of the association list are pairwise distinct, as in a
Python dict. -/
def keysNodup {α : Type} (l : List (String × α)) : Prop :=
  (l.map Prod.fst).Nodup

/-- The five per-session dictionaries of `ConnectionManager.__init__`.
Connection handles (`WebSocket` objects, compared by identity) are
modelled as natural numbers. -/
structure Manager where
  active_connections : List (String × List Nat)
  active_devices : List (String × List Json)
  session_messages : List (String × List Json)
  session_actions : List (String × List Json)
  session_activity : List (String × Int)
  deriving DecidableEq

/-- The manager state constructed by `ConnectionManager.__init__`. -/
def Manager.init : Manager := ⟨[], [], [], [], []⟩

/-- The frames `send_session_history` attempts to send, in order: one
`session_info` frame, then one `new_message` frame per stored message
(oldest first), then one `action_used` frame per stored action (oldest
first).  The source indexes the dictionaries directly; `getD` is safe
because `connect` initializes the keys before calling this. -/
def send_session_history_frames (m : Manager) (sid : String) : List Json :=
  let devs := (alookup m.active_devices sid).getD []
  let msgs := (alookup m.session_messages sid).getD []
  let acts := (alookup m.session_actions sid).getD []
  Json.obj [("type", .str "session_info"),
      ("payload", .obj [("sessionId", .str sid), ("activeDevices", .arr devs),
        ("messageCount", .num (msgs.length : Int)),
        ("actionCount", .num (acts.length : Int))])]
    :: (msgs.map (fun p => Json.obj [("type", .str "new_message"), ("payload", p)])
      ++ acts.map (fun p => Json.obj [("type", .str "action_used"), ("payload", p)]))

/-- The frames actually delivered by `send_session_history` when the
send with index `i` succeeds iff `ok i`: the whole body is wrapped in
one `try`, so the first failing send aborts the remaining sends and the
exception is swallowed. -/
def replay_deliver (ok : Nat → Bool) : Nat → List Json → List Json
  | _, [] => []
  | i, f :: rest => if ok i then f :: replay_deliver ok (i + 1) rest else []

/-- `ConnectionManager.connect`: initialize the session structures on a
previously-unseen session id, append the connection, update the
activity timestamp, and return (state, replay frames sent to the new
connection). -/
def connect (m : Manager) (c : Nat) (sid : String) (now : Int) : Manager × List Json :=
  let m1 :=
    if (alookup m.active_connections sid).isSome then m
    else
      { m with
        active_connections := ainsert m.active_connections sid []
        active_devices := ainsert m.active_devices sid []
        session_messages := ainsert m.session_messages sid []
        session_actions := ainsert m.session_actions sid [] }
  let conns := (alookup m1.active_connections sid).getD []
  let m2 :=
    { m1 with
      active_connections := ainsert m1.active_connections sid (conns ++ [c])
      session_activity := ainsert m1.session_activity sid now }
  (m2, send_session_history_frames m2 sid)

/-- `ConnectionManager.disconnect`: remove the connection from the
session connection list if present; the session itself is kept. -/
def disconnect (m : Manager) (c : Nat) (sid : String) : Manager :=
  match alookup m.active_connections sid with
  | none => m
  | some conns =>
      let conns1 := if conns.contains c then conns.erase c else conns
      { m with active_connections := ainsert m.active_connections sid conns1 }

/-- One attempted `send_text` during a broadcast; `fail c` means the
send to connection `c` raises. -/
def sendFrame (fail : Nat → Bool) (c : Nat) : Except String Unit :=
  if fail c then .error "ConnectionClosed" else .ok ()

/-- The loop body of `ConnectionManager.broadcast`: skip `exclude`,
attempt each other send, catch and log per-connection failures, and
carry on.  Returns the connections that received the frame. -/
def broadcastRun (fail : Nat → Bool) (exclude : Option Nat) : List Nat → List Nat
  | [] => []
  | c :: rest =>
      if some c = exclude then broadcastRun fail exclude rest
      else
        match sendFrame fail c with
        | .ok _ => c :: broadcastRun fail exclude rest
        | .error _ => broadcastRun fail exclude rest

/-- `ConnectionManager.broadcast`: deliver to every connection of the
session except `exclude`; unknown session ids deliver to nobody. -/
def broadcast (m : Manager) (sid : String) (exclude : Option Nat) (fail : Nat → Bool) :
    List Nat :=
  match alookup m.active_connections sid with
  | some conns => broadcastRun fail exclude conns
  | none => []

/-- `ConnectionManager.handle_event`: parse the frame fields, update the
activity timestamp, then run the per-kind transition and return the
updated state together with the frames passed to `broadcast` for this
session.  `Except.error` models a Python exception escaping the method
(`AttributeError` when `.get` is called on a non-dict, `KeyError` when
a session dictionary is indexed at a missing id); the state returned
alongside the error is the state as mutated up to the raise point. -/
def handle_event (m : Manager) (_ws : Nat) (sid : String) (data : Json)
    (now : Int) (nowIso : String) : Manager × Except String (List Json) :=
  match data with
  | .obj kvs =>
    let event_type := (alookup kvs "type").getD Json.null
    let payload := (alookup kvs "payload").getD (Json.obj [])
    let m1 := { m with session_activity := ainsert m.session_activity sid now }
    if !event_type.truthy then (m1, .ok [])
    else if event_type = Json.str "session_joined" then
      match payload with
      | .obj pkvs =>
        match alookup m1.active_devices sid with
        | none => (m1, .error "KeyError: active_devices")
        | some devs =>
          let device_id := (alookup pkvs "deviceId").getD Json.null
          let ts := (alookup pkvs "timestamp").getD (Json.str nowIso)
          let m2 :=
            if device_id.truthy && !(devs.contains device_id) then
              { m1 with active_devices := ainsert m1.active_devices sid (devs ++ [device_id]) }
            else m1
          let devsNow := (alookup m2.active_devices sid).getD []
          (m2, .ok [Json.obj [("type", .str "session_joined"),
            ("payload", .obj [("deviceId", device_id), ("timestamp", ts),
              ("sessionId", .str sid), ("activeDevices", .arr devsNow)])]])
      | _ => (m1, .error "AttributeError")
    else if event_type = Json.str "session_left" then
      match payload with
      | .obj pkvs =>
        match alookup m1.active_devices sid with
        | none => (m1, .error "KeyError: active_devices")
        | some devs =>
          let device_id := (alookup pkvs "deviceId").getD Json.null
          let ts := (alookup pkvs "timestamp").getD (Json.str nowIso)
          let m2 :=
            if device_id.truthy && devs.contains device_id then
              { m1 with active_devices := ainsert m1.active_devices sid (devs.erase device_id) }
            else m1
          let devsNow := (alookup m2.active_devices sid).getD []
          (m2, .ok [Json.obj [("type", .str "session_left"),
            ("payload", .obj [("deviceId", device_id), ("timestamp", ts),
              ("sessionId", .str sid), ("activeDevices", .arr devsNow)])]])
      | _ => (m1, .error "AttributeError")
    else if event_type = Json.str "action_used" then
      match alookup m1.session_actions sid with
      | none => (m1, .error "KeyError: session_actions")
      | some acts =>
        let acts1 := acts ++ [payload]
        let acts2 := if acts1.length > 100 then acts1.drop (acts1.length - 100) else acts1
        ({ m1 with session_actions := ainsert m1.session_actions sid acts2 },
          .ok [Json.obj [("type", .str "action_used"), ("payload", payload)]])
    else if event_type = Json.str "new_message" then
      match alookup m1.session_messages sid with
      | none => (m1, .error "KeyError: session_messages")
      | some msgs =>
        let msgs1 := msgs ++ [payload]
        let msgs2 := if msgs1.length > 100 then msgs1.drop (msgs1.length - 100) else msgs1
        ({ m1 with session_messages := ainsert m1.session_messages sid msgs2 },
          .ok [Json.obj [("type", .str "new_message"), ("payload", payload)]])
    else if event_type = Json.str "tool_used" then
      (m1, .ok [Json.obj [("type", .str "tool_used"), ("payload", payload)]])
    else
      (m1, .ok [data])
  | _ => (m, .error "AttributeError")

/-- Delete one session from all five dictionaries (the per-session body
of the cleanup loop). -/
def reapSession (m : Manager) (sid : String) : Manager :=
  { active_connections := aerase m.active_connections sid
    active_devices := aerase m.active_devices sid
    session_messages := aerase m.session_messages sid
    session_actions := aerase m.session_actions sid
    session_activity := aerase m.session_activity sid }

/-- One pass of `ConnectionManager.cleanup_inactive_sessions` at time
`now`: collect the sessions whose last activity is more than 24 hours
(86400 seconds) old, then delete each of them from every dictionary. -/
def cleanup_inactive_sessions (m : Manager) (now : Int) : Manager :=
  let inactive := (m.session_activity.filter (fun e => now - e.2 > 86400)).map Prod.fst
  inactive.foldl reapSession m

/-- Sequentially handle a list of inbound frames for one session,
keeping the state each step leaves behind. -/
def apply_events (m : Manager) (c : Nat) (sid : String) (evts : List Json)
    (now : Int) (nowIso : String) : Manager :=
  evts.foldl (fun st e => (handle_event st c sid e now nowIso).1) m

theorem alookup_ainsert_self {α : Type} (l : List (String × α)) (k : String) (v : α) :
    alookup (ainsert l k v) k = some v := by
  induction l with
  | nil => simp [ainsert, alookup]
  | cons e t ih =>
    obtain ⟨k1, v1⟩ := e
    by_cases h : k1 = k
    · simp [ainsert, h, alookup]
    · simp [ainsert, h, alookup, ih]

theorem alookup_ainsert_ne {α : Type} (l : List (String × α)) (k k' : String) (v : α)
    (h : k' ≠ k) : alookup (ainsert l k v) k' = alookup l k' := by
  induction l with
  | nil => simp [ainsert, alookup, Ne.symm h]
  | cons e t ih =>
    obtain ⟨k1, v1⟩ := e
    by_cases h1 : k1 = k
    · subst h1
      simp [ainsert, alookup, Ne.symm h]
    · simp [ainsert, h1, alookup, ih]

theorem alookup_aerase_self {α : Type} (l : List (String × α)) (k : String) :
    alookup (aerase l k) k = none := by
  induction l with
  | nil => rfl
  | cons e t ih =>
    obtain ⟨k1, v1⟩ := e
    by_cases h : k1 = k
    · simpa [aerase, List.filter_cons, h] using ih
    · simpa [aerase, List.filter_cons, h, alookup] using ih

theorem alookup_aerase_ne {α : Type} (l : List (String × α)) (k k' : String)
    (h : k' ≠ k) : alookup (aerase l k) k' = alookup l k' := by
  induction l with
  | nil => rfl
  | cons e t ih =>
    obtain ⟨k1, v1⟩ := e
    by_cases h1 : k1 = k
    · subst h1
      simpa [aerase, List.filter_cons, alookup, Ne.symm h] using ih
    · by_cases h2 : k1 = k'
      · subst h2
        simp [aerase, List.filter_cons, h1, alookup]
      · simpa [aerase, List.filter_cons, h1, alookup, h2] using ih

theorem alookup_mem {α : Type} {l : List (String × α)} {k : String} {v : α}
    (h : alookup l k = some v) : (k, v) ∈ l := by
  induction l with
  | nil => simp [alookup] at h
  | cons e t ih =>
    obtain ⟨k1, v1⟩ := e
    by_cases h1 : k1 = k
    · subst h1
      simp [alookup] at h
      simp [h]
    · simp [alookup, h1] at h
      exact List.mem_cons_of_mem _ (ih h)

theorem alookup_eq_of_mem {α : Type} {l : List (String × α)} {k : String} {v : α}
    (hn : keysNodup l) (h : (k, v) ∈ l) : alookup l k = some v := by
  induction l with
  | nil => simp at h
  | cons e t ih =>
    obtain ⟨k1, v1⟩ := e
    have hn' : k1 ∉ t.map Prod.fst ∧ keysNodup t := by
      simpa [keysNodup, List.nodup_cons] using hn
    rcases List.mem_cons.mp h with h1 | h1
    · cases h1
      simp [alookup]
    · have hk : k1 ≠ k := by
        intro he
        subst he
        exact hn'.1 (List.mem_map.mpr ⟨(k1, v), h1, rfl⟩)
      simp [alookup, hk]
      exact ih hn'.2 h1

theorem alookup_foldl_aerase_not_mem {α : Type} (L : List String) (d : List (String × α))
    (k : String) (h : k ∉ L) : alookup (L.foldl aerase d) k = alookup d k := by
  induction L generalizing d with
  | nil => rfl
  | cons s t ih =>
    rw [List.foldl_cons]
    rw [ih _ (fun hh => h (List.mem_cons_of_mem _ hh))]
    exact alookup_aerase_ne _ _ _ (fun hh => h (hh ▸ List.mem_cons_self s t))

theorem alookup_foldl_aerase_mem {α : Type} (L : List String) (d : List (String × α))
    (k : String) (h : k ∈ L) : alookup (L.foldl aerase d) k = none := by
  induction L generalizing d with
  | nil => simp at h
  | cons s t ih =>
    rcases List.mem_cons.mp h with h1 | h1
    · subst h1
      by_cases ht : k ∈ t
      · exact ih _ ht
      · rw [List.foldl_cons, alookup_foldl_aerase_not_mem t _ k ht]
        exact alookup_aerase_self _ _
    · exact ih _ h1

theorem broadcastRun_none_eq_filter (fail : Nat → Bool) (conns : List Nat) :
    broadcastRun fail none conns = conns.filter (fun c => !fail c) := by
  induction conns with
  | nil => rfl
  | cons c t ih =>
    by_cases h : fail c = true
    · simp [broadcastRun, sendFrame, h, List.filter_cons, ih]
    · simp at h
      simp [broadcastRun, sendFrame, h, List.filter_cons, ih]

theorem replay_deliver_take (ok : Nat → Bool) :
    ∀ (frames : List Json) (i k : Nat), (∀ j, j < k → ok (i + j) = true) →
      ok (i + k) = false → replay_deliver ok i frames = frames.take k := by
  intro frames
  induction frames with
  | nil => intro i k _ _; simp [replay_deliver]
  | cons f rest ih =>
    intro i k hok hfail
    cases k with
    | zero =>
      have h0 : ok i = false := by simpa using hfail
      simp [replay_deliver, h0]
    | succ k' =>
      have h0 : ok i = true := by simpa using hok 0 (Nat.succ_pos _)
      have hok' : ∀ j, j < k' → ok (i + 1 + j) = true := by
        intro j hj
        have := hok (j + 1) (by omega)
        simpa [Nat.add_assoc, Nat.add_comm 1 j] using this
      have hfail' : ok (i + 1 + k') = false := by
        have : i + 1 + k' = i + (k' + 1) := by omega
        rw [this]; exact hfail
      simp [replay_deliver, h0, List.take_succ_cons, ih (i + 1) k' hok' hfail']

theorem replay_deliver_all (ok : Nat → Bool) (hok : ∀ j, ok j = true) :
    ∀ (frames : List Json) (i : Nat), replay_deliver ok i frames = frames := by
  intro frames
  induction frames with
  | nil => intro i; rfl
  | cons f rest ih => intro i; simp [replay_deliver, hok i, ih]

theorem foldl_reap_proj (L : List String) (m : Manager) :
    L.foldl reapSession m =
      { active_connections := L.foldl aerase m.active_connections
        active_devices := L.foldl aerase m.active_devices
        session_messages := L.foldl aerase m.session_messages
        session_actions := L.foldl aerase m.session_actions
        session_activity := L.foldl aerase m.session_activity } := by
  induction L generalizing m with
  | nil => rfl
  | cons s t ih => simp [List.foldl_cons, reapSession, ih]

/-- Every history list stored in a per-session history dictionary has at
most 100 entries. -/
def histBound (d : List (String × List Json)) : Prop :=
  ∀ k l, alookup d k = some l → l.length ≤ 100

/-- The invariant of the spec: both history dictionaries are bounded by
100 entries per session. -/
def HistBound (m : Manager) : Prop :=
  histBound m.session_messages ∧ histBound m.session_actions

theorem histBound_ainsert {d : List (String × List Json)} {k : String} {v : List Json}
    (hd : histBound d) (hv : v.length ≤ 100) : histBound (ainsert d k v) := by
  intro k' l hl
  by_cases h : k' = k
  · subst h
    rw [alookup_ainsert_self] at hl
    cases hl
    exact hv
  · rw [alookup_ainsert_ne _ _ _ _ h] at hl
    exact hd _ _ hl

theorem cap_length_le (l : List Json) (p : Json) :
    (if (l ++ [p]).length > 100 then (l ++ [p]).drop ((l ++ [p]).length - 100)
     else l ++ [p]).length ≤ 100 := by
  by_cases hl : (l ++ [p]).length > 100
  · simp only [hl, if_pos, List.length_drop]
    omega
  · simp only [hl, if_neg, if_false]
    omega

theorem handle_event_active_connections (m : Manager) (ws : Nat) (sid : String)
    (data : Json) (now : Int) (iso : String) :
    (handle_event m ws sid data now iso).1.active_connections = m.active_connections := by
  cases data with
  | obj kvs => simp only [handle_event]; (repeat' split) <;> rfl
  | null => rfl
  | bool b => rfl
  | num n => rfl
  | str s => rfl
  | arr xs => rfl

theorem handle_event_HistBound (m : Manager) (ws : Nat) (sid : String)
    (data : Json) (now : Int) (iso : String) (hb : HistBound m) :
    HistBound (handle_event m ws sid data now iso).1 := by
  obtain ⟨hm, ha⟩ := hb
  cases data with
  | obj kvs =>
    simp only [handle_event]
    (repeat' split) <;>
      first
        | exact ⟨hm, ha⟩
        | exact ⟨hm, histBound_ainsert ha (by simp [List.length_drop]; omega)⟩
        | exact ⟨histBound_ainsert hm (by simp [List.length_drop]; omega), ha⟩
        | exact ⟨hm, histBound_ainsert ha (by omega)⟩
        | exact ⟨histBound_ainsert hm (by omega), ha⟩
  | null => exact ⟨hm, ha⟩
  | bool b => exact ⟨hm, ha⟩
  | num n => exact ⟨hm, ha⟩
  | str s => exact ⟨hm, ha⟩
  | arr xs => exact ⟨hm, ha⟩

theorem isSome_alookup_ainsert {α : Type} (l : List (String × α)) (k k' : String) (v : α)
    (h : (alookup l k).isSome = true) : (alookup (ainsert l k' v) k).isSome = true := by
  by_cases he : k = k'
  · subst he
    rw [alookup_ainsert_self]
    rfl
  · rw [alookup_ainsert_ne _ _ _ _ he]
    exact h

theorem connect_HistBound (m : Manager) (c : Nat) (sid : String) (now : Int)
    (hb : HistBound m) : HistBound (connect m c sid now).1 := by
  obtain ⟨hm, ha⟩ := hb
  simp only [connect]
  split
  · exact ⟨hm, ha⟩
  · exact ⟨histBound_ainsert hm (by simp), histBound_ainsert ha (by simp)⟩

theorem apply_events_HistBound (m : Manager) (ws : Nat) (sid : String)
    (evts : List Json) (now : Int) (iso : String) (hb : HistBound m) :
    HistBound (apply_events m ws sid evts now iso) := by
  induction evts generalizing m with
  | nil => exact hb
  | cons e t ih =>
    exact ih _ (handle_event_HistBound m ws sid e now iso hb)

theorem contains_eq_false_of_not_mem {α : Type} [BEq α] [LawfulBEq α] {l : List α} {a : α}
    (h : a ∉ l) : l.contains a = false := by
  cases hc : l.contains a
  · rfl
  · exact absurd (List.elem_iff.mp hc) h

theorem handle_event_session_joined_eq (m : Manager) (ws : Nat) (sid : String)
    (pkvs : List (String × Json)) (devs : List Json) (now : Int) (iso : String)
    (hdev : alookup m.active_devices sid = some devs) :
    handle_event m ws sid
        (Json.obj [("type", .str "session_joined"), ("payload", .obj pkvs)]) now iso
      = (if (((alookup pkvs "deviceId").getD Json.null).truthy
            && !(devs.contains ((alookup pkvs "deviceId").getD Json.null))) = true then
          ({ m with
              active_devices := ainsert m.active_devices sid
                (devs ++ [(alookup pkvs "deviceId").getD Json.null])
              session_activity := ainsert m.session_activity sid now },
           .ok [Json.obj [("type", .str "session_joined"),
             ("payload", .obj [("deviceId", (alookup pkvs "deviceId").getD Json.null),
               ("timestamp", (alookup pkvs "timestamp").getD (.str iso)),
               ("sessionId", .str sid),
               ("activeDevices", .arr (devs ++ [(alookup pkvs "deviceId").getD Json.null]))])]])
        else
          ({ m with session_activity := ainsert m.session_activity sid now },
           .ok [Json.obj [("type", .str "session_joined"),
             ("payload", .obj [("deviceId", (alookup pkvs "deviceId").getD Json.null),
               ("timestamp", (alookup pkvs "timestamp").getD (.str iso)),
               ("sessionId", .str sid), ("activeDevices", .arr devs)])]])) := by
  have h1 : (alookup [("type", Json.str "session_joined"), ("payload", Json.obj pkvs)]
      "type").getD Json.null = Json.str "session_joined" := rfl
  have h2 : (alookup [("type", Json.str "session_joined"), ("payload", Json.obj pkvs)]
      "payload").getD (Json.obj []) = Json.obj pkvs := rfl
  simp only [handle_event, h1, h2]
  rw [hdev]
  rw [if_neg (by decide : ¬((!(Json.str "session_joined").truthy) = true))]
  simp only [if_true]
  by_cases hcond : (((alookup pkvs "deviceId").getD Json.null).truthy
      && !(devs.contains ((alookup pkvs "deviceId").getD Json.null))) = true
  · simp only [if_pos hcond, alookup_ainsert_self, Option.getD_some]
  · simp only [if_neg hcond, hdev, Option.getD_some]

theorem handle_event_session_left_eq (m : Manager) (ws : Nat) (sid : String)
    (pkvs : List (String × Json)) (devs : List Json) (now : Int) (iso : String)
    (hdev : alookup m.active_devices sid = some devs) :
    handle_event m ws sid
        (Json.obj [("type", .str "session_left"), ("payload", .obj pkvs)]) now iso
      = (if (((alookup pkvs "deviceId").getD Json.null).truthy
            && devs.contains ((alookup pkvs "deviceId").getD Json.null)) = true then
          ({ m with
              active_devices := ainsert m.active_devices sid
                (devs.erase ((alookup pkvs "deviceId").getD Json.null))
              session_activity := ainsert m.session_activity sid now },
           .ok [Json.obj [("type", .str "session_left"),
             ("payload", .obj [("deviceId", (alookup pkvs "deviceId").getD Json.null),
               ("timestamp", (alookup pkvs "timestamp").getD (.str iso)),
               ("sessionId", .str sid),
               ("activeDevices", .arr (devs.erase ((alookup pkvs "deviceId").getD Json.null)))])]])
        else
          ({ m with session_activity := ainsert m.session_activity sid now },
           .ok [Json.obj [("type", .str "session_left"),
             ("payload", .obj [("deviceId", (alookup pkvs "deviceId").getD Json.null),
               ("timestamp", (alookup pkvs "timestamp").getD (.str iso)),
               ("sessionId", .str sid), ("activeDevices", .arr devs)])]])) := by
  have h1 : (alookup [("type", Json.str "session_left"), ("payload", Json.obj pkvs)]
      "type").getD Json.null = Json.str "session_left" := rfl
  have h2 : (alookup [("type", Json.str "session_left"), ("payload", Json.obj pkvs)]
      "payload").getD (Json.obj []) = Json.obj pkvs := rfl
  simp only [handle_event, h1, h2]
  rw [hdev]
  rw [if_neg (by decide : ¬((!(Json.str "session_left").truthy) = true))]
  rw [if_neg (by decide : ¬(Json.str "session_left" = Json.str "session_joined"))]
  simp only [if_true]
  by_cases hcond : (((alookup pkvs "deviceId").getD Json.null).truthy
      && devs.contains ((alookup pkvs "deviceId").getD Json.null)) = true
  · simp only [if_pos hcond, alookup_ainsert_self, Option.getD_some]
  · simp only [if_neg hcond, hdev, Option.getD_some]

set_option maxRecDepth 100000 in
/-- Claim C1: for every session and every sequence of handled events,
`message_history` and `action_history` never exceed 100 entries (the
bound holds for the initial manager and is preserved by `connect` and
by every handled event), and eviction is FIFO: after 101 sequential
`action_used` events on one session, `action_history` has length
exactly 100 and holds the payloads of events 2 through 101 in arrival
order (event 1 evicted). -/
theorem claim_C1_history_bound_fifo :
    HistBound Manager.init ∧
    (∀ (m : Manager) (c : Nat) (sid : String) (now : Int),
      HistBound m → HistBound (connect m c sid now).1) ∧
    (∀ (m : Manager) (ws : Nat) (sid : String) (evts : List Json) (now : Int) (iso : String),
      HistBound m → HistBound (apply_events m ws sid evts now iso)) ∧
    alookup (apply_events (connect Manager.init 0 "s1" 0).1 7 "s1"
        ((List.range 101).map (fun i =>
          Json.obj [("type", .str "action_used"), ("payload", .num ((i : Int) + 1))]))
        5 "t").session_actions "s1"
      = some ((List.range 100).map (fun i => Json.num ((i : Int) + 2))) ∧
    alookup (apply_events (connect Manager.init 0 "s1" 0).1 7 "s1"
        ((List.range 101).map (fun i =>
          Json.obj [("type", .str "action_used"), ("payload", .num ((i : Int) + 1))]))
        5 "t").session_messages "s1" = some [] := by
  refine ⟨⟨(fun _ _ h => nomatch h), (fun _ _ h => nomatch h)⟩,
    connect_HistBound, apply_events_HistBound, ?_, ?_⟩ <;> decide

/-- Witness for C1: the bound-preservation part applied at a concrete
state and event list. -/
theorem claim_C1_history_bound_fifo_witness :
    HistBound (apply_events Manager.init 0 "s" [] 0 "") :=
  claim_C1_history_bound_fifo.2.2.1 Manager.init 0 "s" [] 0 ""
    ⟨(fun _ _ h => nomatch h), (fun _ _ h => nomatch h)⟩

/-- Claim C2: on attach, `connect` sends to the new connection exactly
one `session_info` frame (session id, device set, message count and
action count), then one `new_message` frame per stored message oldest
first, then one `action_used` frame per stored action oldest first; if
the send with index `k` fails (all earlier sends succeeding), the
delivered replay is exactly the first `k` frames, and the connection is
still attached afterwards: the replay failure does not tear down the
connection (the resulting state does not depend on the send oracle at
all). -/
theorem claim_C2_replay_order_and_failure (m : Manager) (c : Nat) (sid : String) (now : Int)
    (ok : Nat → Bool) (k : Nat)
    (hok : ∀ j, j < k → ok j = true) (hfail : ok k = false) :
    (connect m c sid now).2
      = Json.obj [("type", .str "session_info"),
          ("payload", .obj [("sessionId", .str sid),
            ("activeDevices", .arr ((alookup (connect m c sid now).1.active_devices sid).getD [])),
            ("messageCount", .num (((alookup (connect m c sid now).1.session_messages sid).getD []).length : Int)),
            ("actionCount", .num (((alookup (connect m c sid now).1.session_actions sid).getD []).length : Int))])]
        :: (((alookup (connect m c sid now).1.session_messages sid).getD []).map
              (fun p => Json.obj [("type", .str "new_message"), ("payload", p)])
          ++ ((alookup (connect m c sid now).1.session_actions sid).getD []).map
              (fun p => Json.obj [("type", .str "action_used"), ("payload", p)])) ∧
    replay_deliver ok 0 (connect m c sid now).2 = (connect m c sid now).2.take k ∧
    c ∈ (alookup (connect m c sid now).1.active_connections sid).getD [] := by
  refine ⟨rfl, ?_, ?_⟩
  · exact replay_deliver_take ok _ 0 k (fun j hj => by simpa using hok j hj)
      (by simpa using hfail)
  · show c ∈ (alookup (connect m c sid now).1.active_connections sid).getD []
    have hconn : (connect m c sid now).1.active_connections
        = ainsert (if (alookup m.active_connections sid).isSome then m
            else { m with
              active_connections := ainsert m.active_connections sid []
              active_devices := ainsert m.active_devices sid []
              session_messages := ainsert m.session_messages sid []
              session_actions := ainsert m.session_actions sid [] }).active_connections sid
          (((alookup (if (alookup m.active_connections sid).isSome then m
            else { m with
              active_connections := ainsert m.active_connections sid []
              active_devices := ainsert m.active_devices sid []
              session_messages := ainsert m.session_messages sid []
              session_actions := ainsert m.session_actions sid [] }).active_connections sid).getD [])
            ++ [c]) := rfl
    rw [hconn, alookup_ainsert_self]
    simp

/-- Witness for C2: a fresh session whose replay consists of the single
`session_info` frame; the first send succeeds and the second (index 1)
fails, so the whole one-frame replay is delivered and the connection
stays attached. -/
theorem claim_C2_replay_order_and_failure_witness :
    replay_deliver (fun i => decide (i = 0)) 0 (connect Manager.init 0 "s1" 0).2
      = (connect Manager.init 0 "s1" 0).2.take 1 ∧
    0 ∈ (alookup (connect Manager.init 0 "s1" 0).1.active_connections "s1").getD [] :=
  ⟨(claim_C2_replay_order_and_failure Manager.init 0 "s1" 0 (fun i => decide (i = 0)) 1
      (fun j hj => by
        have hj0 : j = 0 := by omega
        subst hj0
        rfl)
      (by rfl)).2.1,
   (claim_C2_replay_order_and_failure Manager.init 0 "s1" 0 (fun i => decide (i = 0)) 1
      (fun j hj => by
        have hj0 : j = 0 := by omega
        subst hj0
        rfl)
      (by rfl)).2.2⟩

/-- Claim C3: with `exclude` unset, `broadcast` attempts delivery to
every connection of the session; when no send fails all N connections
(including the sender) receive the frame, and when exactly one
connection fails every other connection still receives it.  Each
attempted send is a fallible `sendFrame`; the failure is consumed
inside the loop, so `broadcast` is a total function: no exception
propagates out of the call. -/
theorem claim_C3_broadcast_fanout (m : Manager) (sid : String) (conns : List Nat)
    (fail : Nat → Bool) (hc : alookup m.active_connections sid = some conns) :
    broadcast m sid none fail = conns.filter (fun c => !fail c) ∧
    ((∀ c, fail c = false) → broadcast m sid none fail = conns) ∧
    (∀ c0 c, c ∈ conns → c ≠ c0 → (∀ c2, c2 ≠ c0 → fail c2 = false) →
      c ∈ broadcast m sid none fail) := by
  have hb : broadcast m sid none fail = broadcastRun fail none conns := by
    simp [broadcast, hc]
  rw [hb, broadcastRun_none_eq_filter]
  refine ⟨rfl, ?_, ?_⟩
  · intro hf
    have he : (fun c => !fail c) = fun _ => true := funext (fun c => by simp [hf c])
    simp [he]
  · intro c0 c hcm hne hf
    refine List.mem_filter.mpr ⟨hcm, ?_⟩
    simp [hf c hne]

/-- Witness for C3: three connections, the middle one failing; the
other two still receive the frame. -/
theorem claim_C3_broadcast_fanout_witness :
    broadcast ⟨[("s", [1, 2, 3])], [], [], [], []⟩ "s" none (fun c => c == 2) = [1, 3] :=
  ((claim_C3_broadcast_fanout ⟨[("s", [1, 2, 3])], [], [], [], []⟩ "s" [1, 2, 3]
    (fun c => c == 2) rfl).1).trans (by decide)

/-- Claim C4: after one run of the Inactivity Reaper at time `now`,
every session whose last activity is more than 24 hours (86400 s) old
is absent from all five registry dictionaries, and every session whose
last activity is within 24 hours is still present in each dictionary
with its state unchanged. -/
theorem claim_C4_reaper_evicts_stale (m : Manager) (now : Int) (sid : String) (t : Int)
    (hn : keysNodup m.session_activity)
    (ht : alookup m.session_activity sid = some t) :
    (now - t > 86400 →
      alookup (cleanup_inactive_sessions m now).active_connections sid = none ∧
      alookup (cleanup_inactive_sessions m now).active_devices sid = none ∧
      alookup (cleanup_inactive_sessions m now).session_messages sid = none ∧
      alookup (cleanup_inactive_sessions m now).session_actions sid = none ∧
      alookup (cleanup_inactive_sessions m now).session_activity sid = none) ∧
    (now - t ≤ 86400 →
      alookup (cleanup_inactive_sessions m now).active_connections sid
        = alookup m.active_connections sid ∧
      alookup (cleanup_inactive_sessions m now).active_devices sid
        = alookup m.active_devices sid ∧
      alookup (cleanup_inactive_sessions m now).session_messages sid
        = alookup m.session_messages sid ∧
      alookup (cleanup_inactive_sessions m now).session_actions sid
        = alookup m.session_actions sid ∧
      alookup (cleanup_inactive_sessions m now).session_activity sid
        = alookup m.session_activity sid) := by
  have hcl : cleanup_inactive_sessions m now =
      ((m.session_activity.filter (fun e => now - e.2 > 86400)).map Prod.fst).foldl
        reapSession m := rfl
  constructor
  · intro hstale
    have hmem : sid ∈ (m.session_activity.filter (fun e => now - e.2 > 86400)).map Prod.fst := by
      refine List.mem_map.mpr ⟨(sid, t), ?_, rfl⟩
      exact List.mem_filter.mpr ⟨alookup_mem ht, by simpa using hstale⟩
    rw [hcl, foldl_reap_proj]
    exact ⟨alookup_foldl_aerase_mem _ _ _ hmem, alookup_foldl_aerase_mem _ _ _ hmem,
      alookup_foldl_aerase_mem _ _ _ hmem, alookup_foldl_aerase_mem _ _ _ hmem,
      alookup_foldl_aerase_mem _ _ _ hmem⟩
  · intro hfresh
    have hnot : sid ∉ (m.session_activity.filter (fun e => now - e.2 > 86400)).map Prod.fst := by
      intro hmem
      obtain ⟨⟨k, u⟩, hkf, hk⟩ := List.mem_map.mp hmem
      simp only at hk
      subst hk
      have h2 := List.mem_filter.mp hkf
      have hu : alookup m.session_activity k = some u := alookup_eq_of_mem hn h2.1
      rw [ht] at hu
      cases hu
      have : now - t > 86400 := by simpa using h2.2
      omega
    rw [hcl, foldl_reap_proj]
    exact ⟨alookup_foldl_aerase_not_mem _ _ _ hnot, alookup_foldl_aerase_not_mem _ _ _ hnot,
      alookup_foldl_aerase_not_mem _ _ _ hnot, alookup_foldl_aerase_not_mem _ _ _ hnot,
      alookup_foldl_aerase_not_mem _ _ _ hnot⟩

/-- Witness for C4: a registry with one stale session (last activity at
0, reaped at time 100000) and one fresh session (last activity at
90000), run through the reaper once. -/
theorem claim_C4_reaper_evicts_stale_witness :
    alookup (cleanup_inactive_sessions
      ⟨[("old", [5]), ("fresh", [9])], [("old", []), ("fresh", [])],
       [("old", []), ("fresh", [])], [("old", []), ("fresh", [])],
       [("old", 0), ("fresh", 90000)]⟩ 100000).session_activity "old" = none ∧
    alookup (cleanup_inactive_sessions
      ⟨[("old", [5]), ("fresh", [9])], [("old", []), ("fresh", [])],
       [("old", []), ("fresh", [])], [("old", []), ("fresh", [])],
       [("old", 0), ("fresh", 90000)]⟩ 100000).active_connections "fresh" = some [9] :=
  ⟨((claim_C4_reaper_evicts_stale
      ⟨[("old", [5]), ("fresh", [9])], [("old", []), ("fresh", [])],
       [("old", []), ("fresh", [])], [("old", []), ("fresh", [])],
       [("old", 0), ("fresh", 90000)]⟩ 100000 "old" 0
      (by unfold keysNodup; decide) rfl).1 (by norm_num)).2.2.2.2,
   (((claim_C4_reaper_evicts_stale
      ⟨[("old", [5]), ("fresh", [9])], [("old", []), ("fresh", [])],
       [("old", []), ("fresh", [])], [("old", []), ("fresh", [])],
       [("old", 0), ("fresh", 90000)]⟩ 100000 "fresh" 90000
      (by unfold keysNodup; decide) rfl).2 (by norm_num)).1).trans rfl⟩

/-- Claim C7: `disconnect` removes only the given connection from the
session connection list; the other sessions and all other dictionaries
(devices, both histories, activity) are unchanged, and the session key
itself survives even when its connection list becomes empty.  The last
two conjuncts record that neither `handle_event` nor `connect` can ever
remove a session from the connection registry: only the Inactivity
Reaper deletes sessions. -/
theorem claim_C7_detach_keeps_session (m : Manager) (c : Nat) (sid : String)
    (conns : List Nat) (hc : alookup m.active_connections sid = some conns) :
    alookup (disconnect m c sid).active_connections sid = some (conns.erase c) ∧
    (∀ sid2, sid2 ≠ sid →
      alookup (disconnect m c sid).active_connections sid2
        = alookup m.active_connections sid2) ∧
    (disconnect m c sid).active_devices = m.active_devices ∧
    (disconnect m c sid).session_messages = m.session_messages ∧
    (disconnect m c sid).session_actions = m.session_actions ∧
    (disconnect m c sid).session_activity = m.session_activity ∧
    (alookup (disconnect m c sid).active_connections sid).isSome = true ∧
    (∀ ws data now iso,
      (handle_event m ws sid data now iso).1.active_connections = m.active_connections) ∧
    (∀ c2 sid2 now2 s, (alookup m.active_connections s).isSome = true →
      (alookup (connect m c2 sid2 now2).1.active_connections s).isSome = true) := by
  have herase : (if conns.contains c then conns.erase c else conns) = conns.erase c := by
    by_cases hb : c ∈ conns
    · rw [if_pos (List.elem_iff.mpr hb)]
    · rw [if_neg (fun hh => hb (List.elem_iff.mp hh)), List.erase_of_not_mem hb]
  have hd : disconnect m c sid =
      { m with active_connections := ainsert m.active_connections sid (conns.erase c) } := by
    simp only [disconnect, hc]
    rw [herase]
  rw [hd]
  refine ⟨?_, ?_, rfl, rfl, rfl, rfl, ?_, ?_, ?_⟩
  · exact alookup_ainsert_self _ _ _
  · intro sid2 hne
    exact alookup_ainsert_ne _ _ _ _ hne
  · rw [alookup_ainsert_self]
    rfl
  · intro ws data now iso
    exact handle_event_active_connections m ws sid data now iso
  · intro c2 sid2 now2 s hs
    simp only [connect]
    split
    · exact isSome_alookup_ainsert _ _ _ _ hs
    · exact isSome_alookup_ainsert _ _ _ _ (isSome_alookup_ainsert _ _ _ _ hs)

/-- Witness for C7: disconnecting connection 4 from a two-connection
session leaves the session present with only connection 5. -/
theorem claim_C7_detach_keeps_session_witness :
    alookup (disconnect ⟨[("s", [4, 5])], [("s", [.str "d"])], [("s", [])], [("s", [])],
      [("s", 3)]⟩ 4 "s").active_connections "s" = some [5] :=
  ((claim_C7_detach_keeps_session ⟨[("s", [4, 5])], [("s", [.str "d"])], [("s", [])],
      [("s", [])], [("s", 3)]⟩ 4 "s" [4, 5] rfl).1).trans (by decide)

/-- Claim C5: handling a `session_joined` event whose payload carries a
(truthy) device id not currently in the session device set adds exactly
that one entry to the set; a repeated join with the same device id
leaves the set unchanged (no duplicate, and in fact the whole state is
unchanged apart from the activity timestamp); in both cases the single
broadcast frame issued to the session is a `session_joined` event
carrying the post-transition device set. -/
theorem claim_C5_session_joined_dedup (m : Manager) (ws : Nat) (sid : String)
    (pkvs : List (String × Json)) (did : Json) (devs : List Json) (now : Int) (iso : String)
    (hdev : alookup m.active_devices sid = some devs)
    (hd : alookup pkvs "deviceId" = some did)
    (ht : did.truthy = true) :
    (did ∉ devs →
      alookup (handle_event m ws sid
          (Json.obj [("type", .str "session_joined"), ("payload", .obj pkvs)])
          now iso).1.active_devices sid = some (devs ++ [did]) ∧
      (handle_event m ws sid
          (Json.obj [("type", .str "session_joined"), ("payload", .obj pkvs)]) now iso).2
        = .ok [Json.obj [("type", .str "session_joined"),
            ("payload", .obj [("deviceId", did),
              ("timestamp", (alookup pkvs "timestamp").getD (.str iso)),
              ("sessionId", .str sid), ("activeDevices", .arr (devs ++ [did]))])]]) ∧
    (did ∈ devs →
      (handle_event m ws sid
          (Json.obj [("type", .str "session_joined"), ("payload", .obj pkvs)]) now iso).1
        = { m with session_activity := ainsert m.session_activity sid now } ∧
      (handle_event m ws sid
          (Json.obj [("type", .str "session_joined"), ("payload", .obj pkvs)]) now iso).2
        = .ok [Json.obj [("type", .str "session_joined"),
            ("payload", .obj [("deviceId", did),
              ("timestamp", (alookup pkvs "timestamp").getD (.str iso)),
              ("sessionId", .str sid), ("activeDevices", .arr devs)])]]) := by
  rw [handle_event_session_joined_eq m ws sid pkvs devs now iso hdev, hd]
  simp only [Option.getD_some]
  constructor
  · intro hnm
    have hcond : (did.truthy && !(devs.contains did)) = true := by
      rw [ht, contains_eq_false_of_not_mem hnm]
      rfl
    rw [if_pos hcond]
    exact ⟨alookup_ainsert_self _ _ _, rfl⟩
  · intro hmem
    have hcond : ¬((did.truthy && !(devs.contains did)) = true) := by
      rw [ht, (show devs.contains did = true from List.elem_iff.mpr hmem)]
      decide
    rw [if_neg hcond]
    exact ⟨rfl, rfl⟩

/-- Witness for C5: joining device `d` to a session with an empty device
set stores exactly `[d]`. -/
theorem claim_C5_session_joined_dedup_witness :
    alookup (handle_event ⟨[("s", [0])], [("s", [])], [("s", [])], [("s", [])], [("s", 0)]⟩
        0 "s" (Json.obj [("type", .str "session_joined"),
          ("payload", .obj [("deviceId", .str "d")])]) 1 "t").1.active_devices "s"
      = some [.str "d"] :=
  ((claim_C5_session_joined_dedup
      ⟨[("s", [0])], [("s", [])], [("s", [])], [("s", [])], [("s", 0)]⟩
      0 "s" [("deviceId", .str "d")] (.str "d") [] 1 "t" rfl rfl rfl).1
    (by simp)).1

/-- Claim C6: handling a `session_left` event whose device id is not in
the session device set changes no session state except the activity
timestamp (the resulting state is literally the old state with only
`session_activity` updated), yet a single `session_left` broadcast
frame is still issued, and fanning it out over the resulting state with
no failures delivers it to every connection of the session. -/
theorem claim_C6_session_left_noop (m : Manager) (ws : Nat) (sid : String)
    (pkvs : List (String × Json)) (did : Json) (devs : List Json) (conns : List Nat)
    (now : Int) (iso : String)
    (hdev : alookup m.active_devices sid = some devs)
    (hconn : alookup m.active_connections sid = some conns)
    (hd : alookup pkvs "deviceId" = some did)
    (hnm : did ∉ devs) :
    (handle_event m ws sid
        (Json.obj [("type", .str "session_left"), ("payload", .obj pkvs)]) now iso).1
      = { m with session_activity := ainsert m.session_activity sid now } ∧
    (handle_event m ws sid
        (Json.obj [("type", .str "session_left"), ("payload", .obj pkvs)]) now iso).2
      = .ok [Json.obj [("type", .str "session_left"),
          ("payload", .obj [("deviceId", did),
            ("timestamp", (alookup pkvs "timestamp").getD (.str iso)),
            ("sessionId", .str sid), ("activeDevices", .arr devs)])]] ∧
    broadcast (handle_event m ws sid
        (Json.obj [("type", .str "session_left"), ("payload", .obj pkvs)]) now iso).1
      sid none (fun _ => false) = conns := by
  rw [handle_event_session_left_eq m ws sid pkvs devs now iso hdev, hd]
  simp only [Option.getD_some]
  have hcond : ¬((did.truthy && devs.contains did) = true) := by
    rw [contains_eq_false_of_not_mem hnm]
    simp
  rw [if_neg hcond]
  refine ⟨rfl, rfl, ?_⟩
  have hbc : alookup ({ m with session_activity := ainsert m.session_activity sid now
      } : Manager).active_connections sid = some conns := hconn
  rw [show broadcast ({ m with session_activity := ainsert m.session_activity sid now
      } : Manager) sid none (fun _ => false)
      = broadcastRun (fun _ => false) none conns by simp [broadcast, hbc]]
  rw [broadcastRun_none_eq_filter]
  simp

/-- Witness for C6: a `session_left` for an unknown device `ghost`
leaves the state untouched apart from the activity timestamp and the
broadcast still reaches both connections. -/
theorem claim_C6_session_left_noop_witness :
    (handle_event ⟨[("s", [0, 1])], [("s", [.str "a"])], [("s", [])], [("s", [])], [("s", 0)]⟩
        0 "s" (Json.obj [("type", .str "session_left"),
          ("payload", .obj [("deviceId", .str "ghost")])]) 1 "t").1
      = { (⟨[("s", [0, 1])], [("s", [.str "a"])], [("s", [])], [("s", [])], [("s", 0)]⟩ : Manager)
          with session_activity := ainsert [("s", 0)] "s" 1 } ∧
    broadcast (handle_event ⟨[("s", [0, 1])], [("s", [.str "a"])], [("s", [])], [("s", [])],
        [("s", 0)]⟩ 0 "s" (Json.obj [("type", .str "session_left"),
          ("payload", .obj [("deviceId", .str "ghost")])]) 1 "t").1 "s" none (fun _ => false)
      = [0, 1] := by
  have h := claim_C6_session_left_noop
    ⟨[("s", [0, 1])], [("s", [.str "a"])], [("s", [])], [("s", [])], [("s", 0)]⟩
    0 "s" [("deviceId", .str "ghost")] (.str "ghost") [.str "a"] [0, 1] 1 "t"
    rfl rfl rfl (by decide)
  exact ⟨h.1, h.2.2⟩

/-- Claim C8: for an inbound frame whose kind is a nonempty string that
is none of the five specially interpreted kinds, the router changes no
session state other than the activity timestamp, and the single frame
it broadcasts is the entire original frame value, so its serialization
equals the re-serialization of the parsed inbound frame (round-trip
through parse and re-serialize unchanged). -/
theorem claim_C8_passthrough_verbatim (m : Manager) (ws : Nat) (sid : String)
    (kvs : List (String × Json)) (k : String) (now : Int) (iso : String)
    (htype : alookup kvs "type" = some (.str k))
    (hne : k ≠ "")
    (hnotin : k ∉ (["session_joined", "session_left", "action_used",
      "new_message", "tool_used"] : List String)) :
    handle_event m ws sid (Json.obj kvs) now iso
      = ({ m with session_activity := ainsert m.session_activity sid now },
         .ok [Json.obj kvs]) := by
  have hk1 : k ≠ "session_joined" := fun h => hnotin (by simp [h])
  have hk2 : k ≠ "session_left" := fun h => hnotin (by simp [h])
  have hk3 : k ≠ "action_used" := fun h => hnotin (by simp [h])
  have hk4 : k ≠ "new_message" := fun h => hnotin (by simp [h])
  have hk5 : k ≠ "tool_used" := fun h => hnotin (by simp [h])
  simp only [handle_event, htype, Option.getD_some]
  rw [if_neg (by simp [Json.truthy, hne])]
  rw [if_neg (by simp [Json.str.injEq, hk1])]
  rw [if_neg (by simp [Json.str.injEq, hk2])]
  rw [if_neg (by simp [Json.str.injEq, hk3])]
  rw [if_neg (by simp [Json.str.injEq, hk4])]
  rw [if_neg (by simp [Json.str.injEq, hk5])]

/-- Witness for C8: a `voice_command` frame is forwarded whole and only
the activity timestamp changes. -/
theorem claim_C8_passthrough_verbatim_witness :
    handle_event Manager.init 0 "s"
        (Json.obj [("type", .str "voice_command"), ("payload", .str "hello")]) 2 "t"
      = ({ Manager.init with session_activity := ainsert [] "s" 2 },
         .ok [Json.obj [("type", .str "voice_command"), ("payload", .str "hello")]]) :=
  claim_C8_passthrough_verbatim Manager.init 0 "s"
    [("type", .str "voice_command"), ("payload", .str "hello")] "voice_command" 2 "t"
    rfl (by decide) (by decide)

/-- Counterexample to claim C9: on a registry in which the session was
reaped (all five dictionaries empty), handling an `action_used` event
for that session raises `KeyError` out of `handle_event` — in
`websocket_endpoint` this exception is not a `JSONDecodeError`, so it
escapes the inner handler, hits the outer `except`, and the connection
receive loop terminates — and the registry afterwards does NOT hold an
empty session for that id: only the activity timestamp was re-inserted
before the raise, and `disconnect` on the reaped session is a strict
no-op that recreates nothing. -/
theorem claim_C9_counterexample :
    (handle_event Manager.init 3 "gone"
        (Json.obj [("type", .str "action_used"), ("payload", .num 1)]) 9 "t").2
      = .error "KeyError: session_actions" ∧
    alookup (handle_event Manager.init 3 "gone"
        (Json.obj [("type", .str "action_used"), ("payload", .num 1)]) 9 "t").1.active_connections
      "gone" = none ∧
    alookup (handle_event Manager.init 3 "gone"
        (Json.obj [("type", .str "action_used"), ("payload", .num 1)]) 9 "t").1.session_actions
      "gone" = none ∧
    alookup (handle_event Manager.init 3 "gone"
        (Json.obj [("type", .str "action_used"), ("payload", .num 1)]) 9 "t").1.session_activity
      "gone" = some 9 ∧
    disconnect Manager.init 3 "gone" = Manager.init :=
  ⟨rfl, rfl, rfl, rfl, rfl⟩

/-- Claim C9 as amended: after a reap, a subsequent `action_used` event
on an orphaned connection re-inserts only the activity timestamp and
then raises `KeyError` (terminating the connection task through the
generic exception handler of the endpoint loop); a subsequent
`tool_used` event completes without error, also re-inserts only the
activity timestamp, and its broadcast reaches no connection of the
vanished session; a subsequent disconnect finds no session and is a
no-op; in no case is an empty session recreated. -/
theorem claim_C9_orphan_behaviour (m : Manager) (ws : Nat) (sid : String) (p : Json)
    (now : Int) (iso : String)
    (hna : alookup m.session_actions sid = none) :
    handle_event m ws sid (Json.obj [("type", .str "action_used"), ("payload", p)]) now iso
      = ({ m with session_activity := ainsert m.session_activity sid now },
         .error "KeyError: session_actions") ∧
    handle_event m ws sid (Json.obj [("type", .str "tool_used"), ("payload", p)]) now iso
      = ({ m with session_activity := ainsert m.session_activity sid now },
         .ok [Json.obj [("type", .str "tool_used"), ("payload", p)]]) ∧
    (alookup m.active_connections sid = none →
      broadcast ({ m with session_activity := ainsert m.session_activity sid now } : Manager)
        sid none (fun _ => false) = [] ∧
      disconnect m ws sid = m) := by
  refine ⟨?_, ?_, ?_⟩
  · have h1 : (alookup [("type", Json.str "action_used"), ("payload", p)]
        "type").getD Json.null = Json.str "action_used" := rfl
    have h2 : (alookup [("type", Json.str "action_used"), ("payload", p)]
        "payload").getD (Json.obj []) = p := rfl
    simp only [handle_event, h1, h2]
    rw [if_neg (by decide : ¬((!(Json.str "action_used").truthy) = true))]
    rw [if_neg (by decide : ¬(Json.str "action_used" = Json.str "session_joined"))]
    rw [if_neg (by decide : ¬(Json.str "action_used" = Json.str "session_left"))]
    simp only [if_true]
    rw [hna]
  · have h1 : (alookup [("type", Json.str "tool_used"), ("payload", p)]
        "type").getD Json.null = Json.str "tool_used" := rfl
    have h2 : (alookup [("type", Json.str "tool_used"), ("payload", p)]
        "payload").getD (Json.obj []) = p := rfl
    simp only [handle_event, h1, h2]
    rw [if_neg (by decide : ¬((!(Json.str "tool_used").truthy) = true))]
    rw [if_neg (by decide : ¬(Json.str "tool_used" = Json.str "session_joined"))]
    rw [if_neg (by decide : ¬(Json.str "tool_used" = Json.str "session_left"))]
    rw [if_neg (by decide : ¬(Json.str "tool_used" = Json.str "action_used"))]
    rw [if_neg (by decide : ¬(Json.str "tool_used" = Json.str "new_message"))]
    simp only [if_true]
  · intro hnc
    have hbc : alookup ({ m with session_activity := ainsert m.session_activity sid now
        } : Manager).active_connections sid = none := hnc
    exact ⟨by simp [broadcast, hbc], by simp [disconnect, hnc]⟩

/-- Witness for the amended C9 on the concrete reaped registry: the
`action_used` raise, the error-free `tool_used` with its empty fanout,
and the no-op disconnect. -/
theorem claim_C9_orphan_behaviour_witness :
    handle_event Manager.init 3 "gone"
        (Json.obj [("type", .str "action_used"), ("payload", .num 1)]) 9 "t"
      = ({ Manager.init with session_activity := ainsert [] "gone" 9 },
         .error "KeyError: session_actions") ∧
    handle_event Manager.init 3 "gone"
        (Json.obj [("type", .str "tool_used"), ("payload", .num 1)]) 9 "t"
      = ({ Manager.init with session_activity := ainsert [] "gone" 9 },
         .ok [Json.obj [("type", .str "tool_used"), ("payload", .num 1)]]) ∧
    broadcast ({ Manager.init with session_activity := ainsert [] "gone" 9 } : Manager)
      "gone" none (fun _ => false) = [] ∧
    disconnect Manager.init 3 "gone" = Manager.init :=
  ⟨(claim_C9_orphan_behaviour Manager.init 3 "gone" (.num 1) 9 "t" rfl).1,
   (claim_C9_orphan_behaviour Manager.init 3 "gone" (.num 1) 9 "t" rfl).2.1,
   ((claim_C9_orphan_behaviour Manager.init 3 "gone" (.num 1) 9 "t" rfl).2.2 rfl).1,
   ((claim_C9_orphan_behaviour Manager.init 3 "gone" (.num 1) 9 "t" rfl).2.2 rfl).2⟩
